import Mathlib

set_option autoImplicit false

/-! Shallow embedding of `enterprise_gateway/enterprisegatewayapp.py` and of
the parts of its startup sequence that the specification describes.  Pure
helpers first, then the configuration resolvers, the lifecycle traces, the
stop machinery, and the web-application settings. -/

/-- A process environment: maps a variable name to its value when it is set. -/
def Env : Type := String → Option String

/-- Python `os.getenv(key, default)` with a string default: the value when the
variable is set, otherwise the default. -/
def getenvS (env : Env) (key : String) (dflt : String) : String :=
  (env key).getD dflt

/-- Python `s.split(sep)` on the character list, for a one-character separator:
splits at every occurrence and keeps empty pieces, so `"".split(",")` is
`[""]`. -/
def pySplitList (sep : Char) : List Char → List (List Char)
  | [] => [[]]
  | c :: cs =>
    match pySplitList sep cs with
    | [] => if c = sep then [[], []] else [[c]]
    | r :: rs => if c = sep then [] :: r :: rs else (c :: r) :: rs

/-- Python `s.split(sep)` for a one-character separator. -/
def pySplit (sep : Char) (s : String) : List String :=
  (pySplitList sep s.toList).map (fun cs => String.mk cs)

/-- ASCII lowering of one character, as Python `str.lower` does on ASCII. -/
def pyLowerChar (c : Char) : Char :=
  if 65 ≤ c.toNat ∧ c.toNat ≤ 90 then Char.ofNat (c.toNat + 32) else c

/-- Python `s.lower()` (ASCII range, which covers every username and every
literal the source compares against). -/
def pyLower (s : String) : String :=
  String.mk (s.toList.map pyLowerChar)

/-- Accumulates a decimal digit string; `none` on a non-digit or on the empty
string handled by the caller. -/
def pyDigits : List Char → Nat → Option Nat
  | [], acc => some acc
  | c :: rest, acc =>
    if c.isDigit then pyDigits rest (acc * 10 + (c.toNat - 48)) else none

/-- Python `int(s)` on an optionally signed decimal string; `none` models the
`ValueError` raised on anything else. -/
def pyInt (s : String) : Option Int :=
  match s.toList with
  | [] => none
  | '-' :: rest =>
    match rest with
    | [] => none
    | _ => (pyDigits rest 0).map (fun n => -(n : Int))
  | '+' :: rest =>
    match rest with
    | [] => none
    | _ => (pyDigits rest 0).map (fun n => (n : Int))
  | cs => (pyDigits cs 0).map (fun n => (n : Int))

/-! Configuration resolvers, one per tunable the claims cite, each translated
from the `@default` method in the source. -/

def remote_hosts_env : String := "EG_REMOTE_HOSTS"

def remote_hosts_default_value : String := "localhost"

/-- `remote_hosts_default` (source lines 53-55):
`os.getenv(self.remote_hosts_env, self.remote_hosts_default_value).split(',')`. -/
def remote_hosts_default (env : Env) : List String :=
  pySplit ',' (getenvS env remote_hosts_env remote_hosts_default_value)

def yarn_endpoint_security_enabled_env : String := "EG_YARN_ENDPOINT_SECURITY_ENABLED"

def yarn_endpoint_security_enabled_default_value : Bool := false

/-- `yarn_endpoint_security_enabled_default` (source lines 87-90):
`bool(os.getenv(env_var, False))` - when the variable is set the value is a
string and Python `bool` of a string is its non-emptiness; when unset the
default `False` is passed through `bool` unchanged. -/
def yarn_endpoint_security_enabled_default (env : Env) : Bool :=
  match env yarn_endpoint_security_enabled_env with
  | some v => v != ""
  | none => yarn_endpoint_security_enabled_default_value

def impersonation_enabled_env : String := "EG_IMPERSONATION_ENABLED"

/-- `impersonation_enabled_default` (source lines 116-118):
`bool(os.getenv(env_var, 'false').lower() == 'true')`. -/
def impersonation_enabled_default (env : Env) : Bool :=
  pyLower (getenvS env impersonation_enabled_env "false") == "true"

def max_kernels_per_user_env : String := "EG_MAX_KERNELS_PER_USER"

def max_kernels_per_user_default_value : Int := -1

/-- `max_kernels_per_user_default` (source lines 169-171):
`int(os.getenv(env_var, -1))`; when the variable is set `int` parses the
string (`none` models the `ValueError`), when unset `int(-1)` is `-1`. -/
def max_kernels_per_user_default (env : Env) : Option Int :=
  match env max_kernels_per_user_env with
  | some v => pyInt v
  | none => some max_kernels_per_user_default_value

/-- Modelled from the spec: the traitlets machinery (outside src) takes an
explicit configuration override when one is present and otherwise calls the
dynamic-default method; this is the resolved remote_hosts value. -/
def resolve_remote_hosts (override : Option (List String)) (env : Env) : List String :=
  match override with
  | some v => v
  | none => remote_hosts_default env

/-- Modelled from the spec: resolved max_kernels_per_user value, override
first, else the dynamic default. -/
def resolve_max_kernels_per_user (override : Option Int) (env : Env) : Option Int :=
  match override with
  | some v => some v
  | none => max_kernels_per_user_default env

/-- Follows claim C4's words: override when present, else the environment value
only when the variable is set AND non-empty, else the built-in default. -/
def claimResolveRemoteHosts (override : Option (List String)) (env : Env) : List String :=
  match override with
  | some v => v
  | none =>
    match env remote_hosts_env with
    | some s => if s != "" then pySplit ',' s else [remote_hosts_default_value]
    | none => [remote_hosts_default_value]

/-- Amended resolution for remote_hosts: the environment value is used whenever
the variable is set - even when it is empty - else the built-in default. -/
def amendedResolveRemoteHosts (override : Option (List String)) (env : Env) : List String :=
  match override with
  | some v => v
  | none =>
    match env remote_hosts_env with
    | some s => pySplit ',' s
    | none => pySplit ',' remote_hosts_default_value

/-- Amended resolution for max_kernels_per_user: the environment value is
parsed whenever the variable is set - even when it is empty, in which case the
parse fails - else the built-in default. -/
def amendedResolveMaxKernelsPerUser (override : Option Int) (env : Env) : Option Int :=
  match override with
  | some v => some v
  | none =>
    match env max_kernels_per_user_env with
    | some s => pyInt s
    | none => some max_kernels_per_user_default_value

/-- Environment in which EG_REMOTE_HOSTS is set to the empty string. -/
def envEmptyRemoteHosts : Env :=
  fun k => if k = remote_hosts_env then some "" else none

/-- Environment in which EG_YARN_ENDPOINT_SECURITY_ENABLED is set to "false". -/
def envYarnSecurityFalse : Env :=
  fun k => if k = yarn_endpoint_security_enabled_env then some "false" else none

/-- Environment in which EG_IMPERSONATION_ENABLED is set to "false". -/
def envImpersonationFalse : Env :=
  fun k => if k = impersonation_enabled_env then some "false" else none

/-! Lifecycle model: the observable construction and startup steps of
`init_configurables` (source lines 215-284), `init_webapp` (286-297) and
`start` (299-330), as an event trace. -/

/-- One observable step of initialization or startup. -/
inductive Ev
  | specCatalogCreated
  | seedNotebookLoaded
  | execManagerCreated
  | cullerWarning
  | sessionManagerCreated
  | sessionRegistryCreated
  | recoveryDone
  | personalityCreated
  | personalityHookRan
  | listenerOpened
  | startupBannerLogged
  | impersonationWarning
  | sighupIgnoredSet
  | sigtermHandlerSet
  | loopRunning
  deriving DecidableEq

/-- The configuration fields `init_configurables` reads.  `prespawn_count` and
`max_kernels` are nullable integers in the source (traitlets `Integer` with
`allow_none`), read through Python truthiness. -/
structure InitConfig where
  seed_uri : Option String
  hasCullerHook : Bool
  prespawn_count : Option Int
  max_kernels : Option Int

/-- Python truthiness of a nullable integer: `None` and `0` are falsy. -/
def truthyOptInt : Option Int → Bool
  | none => false
  | some n => n != 0

/-- The fatal startup error of this file. -/
inductive ConfigErr
  | prespawnExceedsMaxKernels (prespawn maxKernels : Int)
  deriving DecidableEq

/-- The guard at source lines 274-278: `if self.prespawn_count:` and then
`if self.max_kernels and self.prespawn_count > self.max_kernels:`. -/
def prespawnViolation (cfg : InitConfig) : Bool :=
  truthyOptInt cfg.prespawn_count &&
    (truthyOptInt cfg.max_kernels &&
      decide (cfg.prespawn_count.getD 0 > cfg.max_kernels.getD 0))

/-- The construction steps of `init_configurables` (source lines 225-272) that
run before the prespawn guard: spec catalog (created twice, lines 225 and
238), optional seed-notebook load, execution manager, culler-capability check,
session manager, session registry, and persisted-session recovery. -/
def preGuardTrace (cfg : InitConfig) : List Ev :=
  [Ev.specCatalogCreated]
    ++ (match cfg.seed_uri with
        | some _ => [Ev.seedNotebookLoaded]
        | none => [])
    ++ [Ev.specCatalogCreated, Ev.execManagerCreated]
    ++ (if cfg.hasCullerHook then [] else [Ev.cullerWarning])
    ++ [Ev.sessionManagerCreated, Ev.sessionRegistryCreated, Ev.recoveryDone]

/-- Event trace of `init_configurables` (source lines 215-284), paired with
the fatal configuration error when the prespawn guard trips; the guard sits
after session recovery and before the personality steps, exactly as in the
source. -/
def init_configurables (cfg : InitConfig) : List Ev × Option ConfigErr :=
  if prespawnViolation cfg then
    (preGuardTrace cfg,
      some (ConfigErr.prespawnExceedsMaxKernels (cfg.prespawn_count.getD 0)
        (cfg.max_kernels.getD 0)))
  else
    (preGuardTrace cfg ++ [Ev.personalityCreated, Ev.personalityHookRan], none)

/-- The fields of `start` the advisory impersonation check reads. -/
structure StartCfg where
  impersonation_enabled : Bool
  gateway_user : String
  unauthorized_users : List String

/-- The advisory check in `start` (source lines 309-315): the warning fires
when impersonation is enabled and the LOWERCASED gateway user is not a member
of `unauthorized_users` (`gateway_user.lower() not in self.unauthorized_users`,
membership itself by case-sensitive string equality). -/
def impersonationWarningFires (st : StartCfg) : Bool :=
  st.impersonation_enabled && !(st.unauthorized_users.contains (pyLower st.gateway_user))

/-- Event trace of `start` (source lines 299-330) up to the loop running:
banner log, optional advisory warning, SIGHUP ignored, SIGTERM handler
installed, IO loop entered. -/
def startTrace (st : StartCfg) : List Ev :=
  [Ev.startupBannerLogged]
    ++ (if impersonationWarningFires st then [Ev.impersonationWarning] else [])
    ++ [Ev.sighupIgnoredSet, Ev.sigtermHandlerSet, Ev.loopRunning]

/-- Modelled from the spec: the application's `initialize` (in the superclass,
not under src) runs `init_configurables` and then `init_webapp`, which opens
the network listener; `start` then runs and enters the IO loop (Serving).  A
fatal error during `init_configurables` aborts the whole sequence before the
listener exists. -/
def startupTrace (cfg : InitConfig) (st : StartCfg) : List Ev × Option ConfigErr :=
  match init_configurables cfg with
  | (t, some e) => (t, some e)
  | (t, none) => (t ++ [Ev.listenerOpened] ++ startTrace st, none)

/-! Stop machinery: `stop` (source lines 332-341) and `_signal_stop`
(343-345), modelled as transformations of an application state that records
what was scheduled onto the IO loop and what ran inline in the caller. -/

/-- A teardown action of the stop path. -/
inductive StopAct
  | httpServerStopCall
  | ioLoopStopCall
  deriving DecidableEq

/-- State observed by the stop path: callbacks pending on the IO loop (each a
list of actions), actions performed inline in the calling context, and the
number of info-log lines. -/
structure AppState where
  scheduled : List (List StopAct)
  inlineActs : List StopAct
  infoLogs : Nat
  deriving DecidableEq

/-- `stop` (source lines 332-341): `io_loop.add_callback(_stop)` where the
`_stop` closure stops the HTTP server and then the IO loop; nothing at all
runs in the calling context. -/
def stop (s : AppState) : AppState :=
  { s with scheduled :=
      s.scheduled ++ [[StopAct.httpServerStopCall, StopAct.ioLoopStopCall]] }

/-- `_signal_stop` (source lines 343-345): logs and then calls
`self.io_loop.stop()` directly in the signal-handling context; nothing is
scheduled onto the loop. -/
def signal_stop (s : AppState) : AppState :=
  { s with infoLogs := s.infoLogs + 1,
           inlineActs := s.inlineActs ++ [StopAct.ioLoopStopCall] }

/-- The state before any stop-path call. -/
def initialAppState : AppState :=
  { scheduled := [], inlineActs := [], infoLogs := 0 }

/-- `stop` invoked `n` times in a row. -/
def stopN : Nat → AppState → AppState
  | 0, s => s
  | n + 1, s => stopN n (stop s)

/-- The stop work the IO loop performs when it drains its callback queue. -/
def loopWork (s : AppState) : List StopAct :=
  s.scheduled.flatten

/-! Web-application settings: `init_webapp` (source lines 286-297) mutates the
`web_app.settings` dictionary, modelled as an association list. -/

/-- A value stored in the settings dictionary. -/
inductive SettingVal
  | boolVal (b : Bool)
  | intVal (n : Int)
  deriving DecidableEq

/-- Python dict assignment `settings[k] = v`: replace the binding when the key
is present, otherwise append it. -/
def setSetting (k : String) (v : SettingVal) :
    List (String × SettingVal) → List (String × SettingVal)
  | [] => [(k, v)]
  | (k2, v2) :: rest =>
    if k2 = k then (k, v) :: rest else (k2, v2) :: setSetting k v rest

/-- Python dict lookup `settings[k]`. -/
def getSetting (k : String) : List (String × SettingVal) → Option SettingVal
  | [] => none
  | (k2, v2) :: rest => if k2 = k then some v2 else getSetting k rest

/-- `init_webapp` (source lines 286-297): after the superclass builds the
settings, set `allow_remote_access` to True unconditionally and set
`ws_ping_interval` to the configured seconds value times 1000. -/
def init_webapp (ws_ping_interval : Int) (settings : List (String × SettingVal)) :
    List (String × SettingVal) :=
  setSetting "ws_ping_interval" (SettingVal.intVal (ws_ping_interval * 1000))
    (setSetting "allow_remote_access" (SettingVal.boolVal true) settings)

/-! Shared helper lemmas and concrete configurations. -/

/-- Looking a key up right after setting it yields the new value. -/
theorem getSetting_setSetting_self (k : String) (v : SettingVal)
    (s : List (String × SettingVal)) :
    getSetting k (setSetting k v s) = some v := by
  induction s with
  | nil => simp [setSetting, getSetting]
  | cons p rest ih =>
    obtain ⟨k2, v2⟩ := p
    by_cases h : k2 = k
    · simp [setSetting, getSetting, h]
    · simp [setSetting, getSetting, h, ih]

/-- Setting one key leaves the lookup of a different key unchanged. -/
theorem getSetting_setSetting_other (k k2 : String) (hne : k2 ≠ k) (v : SettingVal)
    (s : List (String × SettingVal)) :
    getSetting k (setSetting k2 v s) = getSetting k s := by
  induction s with
  | nil => simp [setSetting, getSetting, hne]
  | cons p rest ih =>
    obtain ⟨k3, v3⟩ := p
    by_cases h : k3 = k2
    · subst h
      simp [setSetting, getSetting, hne]
    · by_cases h2 : k3 = k
      · simp [setSetting, getSetting, h, h2, Ne.symm hne]
      · simp [setSetting, getSetting, h, h2, ih]

/-- No step before the prespawn guard opens the network listener. -/
theorem listenerOpened_not_in_preGuard (cfg : InitConfig) :
    Ev.listenerOpened ∉ preGuardTrace cfg := by
  rcases cfg with ⟨seed, ch, pc, mk⟩
  cases seed <;> cases ch <;> simp [preGuardTrace]

/-- A configuration with neither prespawning nor limits nor a seed. -/
def cfgPlain : InitConfig :=
  { seed_uri := none, hasCullerHook := true, prespawn_count := none, max_kernels := none }

/-- Prespawn count 5 against a configured max-kernels limit of 0. -/
def cfgPrespawn5Max0 : InitConfig :=
  { seed_uri := none, hasCullerHook := true, prespawn_count := some 5, max_kernels := some 0 }

/-- Prespawn count 5 against a configured max-kernels limit of 3. -/
def cfgPrespawn5Max3 : InitConfig :=
  { seed_uri := none, hasCullerHook := true, prespawn_count := some 5, max_kernels := some 3 }

/-- A configuration whose kernel manager lacks the culler capability. -/
def cfgNoCuller : InitConfig :=
  { seed_uri := none, hasCullerHook := false, prespawn_count := none, max_kernels := none }

/-- Start fields with impersonation off and the default deny set. -/
def stPlain : StartCfg :=
  { impersonation_enabled := false, gateway_user := "eg", unauthorized_users := ["root"] }

/-- Impersonation on, gateway user "Root", deny set containing exactly "Root". -/
def stRootDeny : StartCfg :=
  { impersonation_enabled := true, gateway_user := "Root", unauthorized_users := ["Root"] }

/-! Claim theorems. -/

/-- C1: counterexample.  On a terminate-class signal the installed handler
`_signal_stop` performs loop teardown directly in the signal-handling context -
one inline `io_loop.stop()` call - and schedules nothing onto the event loop,
so it does not merely schedule a stop sequence and it does call loop teardown
directly; it also never stops the network listener. -/
theorem C1_handler_inline_counterexample :
    (signal_stop initialAppState).inlineActs = [StopAct.ioLoopStopCall] ∧
    (signal_stop initialAppState).scheduled = [] :=
  ⟨rfl, rfl⟩

/-- C1 amended: on a terminate-class signal the handler logs and stops the
event loop directly from the signal-handling context, scheduling nothing and
never touching the HTTP listener; the scheduled stop sequence - one loop
callback that stops the HTTP server and then the IO loop, with no inline
work - belongs to the separate `stop` method, not to the signal handler. -/
theorem C1_amended_signal_and_stop (s : AppState) :
    (signal_stop s).inlineActs = s.inlineActs ++ [StopAct.ioLoopStopCall] ∧
    (signal_stop s).scheduled = s.scheduled ∧
    (signal_stop s).infoLogs = s.infoLogs + 1 ∧
    (stop s).inlineActs = s.inlineActs ∧
    (stop s).scheduled =
      s.scheduled ++ [[StopAct.httpServerStopCall, StopAct.ioLoopStopCall]] :=
  ⟨rfl, rfl, rfl, rfl, rfl⟩

/-- C2: counterexample.  Two invocations of `stop` enqueue two stop callbacks,
so draining the loop performs the HTTP-server stop twice, not exactly once;
the second invocation is not a no-op and no lifecycle state keys it. -/
theorem C2_double_stop_counterexample :
    (loopWork (stopN 2 initialAppState)).count StopAct.httpServerStopCall = 2 ∧
    stopN 2 initialAppState ≠ stopN 1 initialAppState := by
  exact ⟨rfl, by decide⟩

/-- C2 amended: `stop` carries no idempotence guard - each invocation schedules
one more copy of the stop callback, so N invocations enqueue N stop sequences,
each stopping the HTTP server and then the IO loop, while performing no work
inline; safety of repeated calls rests on the underlying server and loop
tolerating repeated stops, not on a lifecycle-state key in this code. -/
theorem C2_amended_stop_not_idempotent (n : Nat) (s : AppState) :
    (stopN n s).scheduled =
      s.scheduled ++
        List.replicate n [StopAct.httpServerStopCall, StopAct.ioLoopStopCall] ∧
    (stopN n s).inlineActs = s.inlineActs := by
  induction n generalizing s with
  | zero => simp [stopN]
  | succ k ih =>
    have h := ih (stop s)
    refine ⟨?_, ?_⟩
    · show (stopN k (stop s)).scheduled = _
      rw [h.1]
      simp [stop, List.replicate_succ, List.append_assoc]
    · show (stopN k (stop s)).inlineActs = _
      rw [h.2]
      rfl

/-- C5: the two boolean resolvers diverge on the same environment string
"false" - the yarn security flag resolves to true because
`bool(os.getenv(...))` takes Python truthiness of the non-empty string, while
IMPERSONATION_ENABLED resolves to false through the documented
case-insensitive comparison with "true".  The yarn resolver contradicts its
own help text ("True/False") and the sibling boolean pattern in the same
file, enabling security the operator asked to disable. -/
theorem C5_yarn_bool_of_string_bug :
    yarn_endpoint_security_enabled_default envYarnSecurityFalse = true ∧
    impersonation_enabled_default envImpersonationFalse = false :=
  ⟨rfl, rfl⟩

/-- C9: after `init_webapp` the allow_remote_access setting is True for every
configured ping interval and every settings dictionary the superclass
produced - no tunable reaches this assignment. -/
theorem C9_allow_remote_access_unconditional (w : Int)
    (s0 : List (String × SettingVal)) :
    getSetting "allow_remote_access" (init_webapp w s0) =
      some (SettingVal.boolVal true) := by
  unfold init_webapp
  rw [getSetting_setSetting_other _ _ (by decide), getSetting_setSetting_self]

/-- C10: after `init_webapp` the stored ws_ping_interval equals exactly 1000
times the configured seconds value, for every configured value and every
incoming settings dictionary; in particular a configured 0 stores 0. -/
theorem C10_ws_ping_interval_millis (w : Int) (s0 : List (String × SettingVal)) :
    getSetting "ws_ping_interval" (init_webapp w s0) =
      some (SettingVal.intVal (w * 1000)) ∧
    getSetting "ws_ping_interval" (init_webapp 0 s0) =
      some (SettingVal.intVal 0) := by
  constructor
  · unfold init_webapp
    rw [getSetting_setSetting_self]
  · unfold init_webapp
    rw [getSetting_setSetting_self]
    norm_num

/-- C3: counterexample.  With prespawn_count = 5 and a configured max_kernels
limit of 0 the prespawn count exceeds the limit, yet startup raises no
configuration error and still opens the listener: the guard
`if self.max_kernels` treats a limit of 0 (Python falsy) as if no limit were
configured at all. -/
theorem C3_max_zero_counterexample :
    (5 : Int) > 0 ∧
    (startupTrace cfgPrespawn5Max0 stPlain).2 = none ∧
    Ev.listenerOpened ∈ (startupTrace cfgPrespawn5Max0 stPlain).1 := by
  refine ⟨by norm_num, rfl, by decide⟩

/-- C3 amended: when the prespawn count is nonzero (truthy), the max-kernels
limit is set and nonzero (truthy), and the prespawn count exceeds the limit,
initialization fails fatally with the prespawn configuration error before any
network listener is opened; a max-kernels limit of 0, like an unset one,
disables the check. -/
theorem C3_amended_prespawn_abort (cfg : InitConfig) (st : StartCfg)
    (h1 : truthyOptInt cfg.prespawn_count = true)
    (h2 : truthyOptInt cfg.max_kernels = true)
    (h3 : cfg.prespawn_count.getD 0 > cfg.max_kernels.getD 0) :
    (startupTrace cfg st).2 =
      some (ConfigErr.prespawnExceedsMaxKernels (cfg.prespawn_count.getD 0)
        (cfg.max_kernels.getD 0)) ∧
    Ev.listenerOpened ∉ (startupTrace cfg st).1 := by
  have hv : prespawnViolation cfg = true := by
    simp [prespawnViolation, h1, h2, h3]
  constructor
  · simp [startupTrace, init_configurables, hv]
  · simp only [startupTrace, init_configurables, hv, if_true]
    exact listenerOpened_not_in_preGuard cfg

/-- C3 amended, applied at the claim's own scenario prespawnCount = 5 and
maxKernels = 3: startup aborts with the configuration error and no listener
opens. -/
theorem C3_amended_prespawn_abort_witness :
    (startupTrace cfgPrespawn5Max3 stPlain).2 =
      some (ConfigErr.prespawnExceedsMaxKernels 5 3) ∧
    Ev.listenerOpened ∉ (startupTrace cfgPrespawn5Max3 stPlain).1 :=
  C3_amended_prespawn_abort cfgPrespawn5Max3 stPlain (by decide) (by decide) (by decide)

/-- C4: counterexample.  With no override and EG_REMOTE_HOSTS set to the empty
string, the code resolves remote_hosts to [""] - the split of the empty
environment value - not to the built-in default ["localhost"] that the
claim's "set and non-empty" rule prescribes. -/
theorem C4_empty_env_counterexample :
    resolve_remote_hosts none envEmptyRemoteHosts = [""] ∧
    claimResolveRemoteHosts none envEmptyRemoteHosts = ["localhost"] ∧
    resolve_remote_hosts none envEmptyRemoteHosts ≠
      claimResolveRemoteHosts none envEmptyRemoteHosts := by
  refine ⟨rfl, rfl, by decide⟩

/-- C4 amended: the resolved value is the explicit override when present, else
the environment-variable value whenever the variable is SET - an empty value
is used as-is (split, or parsed and failing), never skipped for the default -
else the built-in default; resolution is a pure function of override and
environment.  Proved by equating the code resolvers with the amended
resolvers for the two cited tunables, on every override and environment. -/
theorem C4_amended_resolution (ov1 : Option (List String)) (ov2 : Option Int)
    (env : Env) :
    resolve_remote_hosts ov1 env = amendedResolveRemoteHosts ov1 env ∧
    resolve_max_kernels_per_user ov2 env = amendedResolveMaxKernelsPerUser ov2 env := by
  constructor
  · cases ov1 with
    | some v => rfl
    | none =>
      simp only [resolve_remote_hosts, amendedResolveRemoteHosts,
        remote_hosts_default, getenvS]
      rcases henv : env remote_hosts_env with _ | s <;> simp [henv]
  · cases ov2 with
    | some v => rfl
    | none => rfl

/-- C6: in any startup whose prespawn guard does not trip, construction runs in
the claimed strict order - spec catalog, then execution manager, then session
registry, then persisted-session recovery, then personality creation with its
init-configurables hook as the last construction step - and recovery precedes
both the listener opening and the loop entering service. -/
theorem C6_construction_order (cfg : InitConfig) (st : StartCfg)
    (h : prespawnViolation cfg = false) :
    ((startupTrace cfg st).1.indexOf Ev.specCatalogCreated <
      (startupTrace cfg st).1.indexOf Ev.execManagerCreated) ∧
    ((startupTrace cfg st).1.indexOf Ev.execManagerCreated <
      (startupTrace cfg st).1.indexOf Ev.sessionRegistryCreated) ∧
    ((startupTrace cfg st).1.indexOf Ev.sessionRegistryCreated <
      (startupTrace cfg st).1.indexOf Ev.recoveryDone) ∧
    ((startupTrace cfg st).1.indexOf Ev.recoveryDone <
      (startupTrace cfg st).1.indexOf Ev.personalityCreated) ∧
    ((startupTrace cfg st).1.indexOf Ev.personalityCreated <
      (startupTrace cfg st).1.indexOf Ev.personalityHookRan) ∧
    ((startupTrace cfg st).1.indexOf Ev.personalityHookRan <
      (startupTrace cfg st).1.indexOf Ev.listenerOpened) ∧
    ((startupTrace cfg st).1.indexOf Ev.recoveryDone <
      (startupTrace cfg st).1.indexOf Ev.loopRunning) := by
  rcases cfg with ⟨seed, ch, pc, mk⟩
  cases hW : impersonationWarningFires st <;>
    cases seed <;>
      cases ch <;>
        simp_all [startupTrace, init_configurables, preGuardTrace, startTrace,
          List.indexOf, List.findIdx, List.findIdx.go] <;>
        decide

/-- C6, applied at a concrete plain configuration: the strict construction
order and the recovery-before-serving ordering hold on the resulting trace. -/
theorem C6_construction_order_witness :
    ((startupTrace cfgPlain stPlain).1.indexOf Ev.specCatalogCreated <
      (startupTrace cfgPlain stPlain).1.indexOf Ev.execManagerCreated) ∧
    ((startupTrace cfgPlain stPlain).1.indexOf Ev.execManagerCreated <
      (startupTrace cfgPlain stPlain).1.indexOf Ev.sessionRegistryCreated) ∧
    ((startupTrace cfgPlain stPlain).1.indexOf Ev.sessionRegistryCreated <
      (startupTrace cfgPlain stPlain).1.indexOf Ev.recoveryDone) ∧
    ((startupTrace cfgPlain stPlain).1.indexOf Ev.recoveryDone <
      (startupTrace cfgPlain stPlain).1.indexOf Ev.personalityCreated) ∧
    ((startupTrace cfgPlain stPlain).1.indexOf Ev.personalityCreated <
      (startupTrace cfgPlain stPlain).1.indexOf Ev.personalityHookRan) ∧
    ((startupTrace cfgPlain stPlain).1.indexOf Ev.personalityHookRan <
      (startupTrace cfgPlain stPlain).1.indexOf Ev.listenerOpened) ∧
    ((startupTrace cfgPlain stPlain).1.indexOf Ev.recoveryDone <
      (startupTrace cfgPlain stPlain).1.indexOf Ev.loopRunning) :=
  C6_construction_order cfgPlain stPlain (by decide)

/-- C7: counterexample.  Impersonation enabled, gateway user "Root", deny set
containing exactly "Root": the user IS a member of the deny set under the
case-sensitive comparison the claim specifies, so the claimed iff forbids the
warning - yet the warning fires, because the code lowercases the gateway user
to "root" before the membership test. -/
theorem C7_lowercase_counterexample :
    stRootDeny.impersonation_enabled = true ∧
    stRootDeny.unauthorized_users.contains stRootDeny.gateway_user = true ∧
    Ev.impersonationWarning ∈ startTrace stRootDeny := by
  refine ⟨rfl, by decide, by decide⟩

/-- C7 amended: at startup the advisory warning is emitted iff impersonation is
enabled and the LOWERCASED gateway user is not a member of the deny set (the
membership test itself is case-sensitive string equality); the warning is
advisory only - startup reaches the IO loop whether or not it fires. -/
theorem C7_amended_warning_iff (st : StartCfg) :
    (Ev.impersonationWarning ∈ startTrace st ↔
      st.impersonation_enabled = true ∧
        st.unauthorized_users.contains (pyLower st.gateway_user) = false) ∧
    Ev.loopRunning ∈ startTrace st := by
  have hmem : Ev.impersonationWarning ∈ startTrace st ↔
      impersonationWarningFires st = true := by
    cases hW : impersonationWarningFires st <;> simp [startTrace, hW]
  constructor
  · rw [hmem]
    simp [impersonationWarningFires]
  · cases hW : impersonationWarningFires st <;> simp [startTrace, hW]

/-- C8: when the kernel manager lacks the idle-culling capability, the
initialization emits the culler warning and still performs everything after
it - session registry creation and persisted-session recovery - and its
fatal-or-not outcome is exactly the outcome with the capability present: the
missing capability is never fatal to startup. -/
theorem C8_missing_culler_nonfatal (cfg : InitConfig)
    (h : cfg.hasCullerHook = false) :
    Ev.cullerWarning ∈ (init_configurables cfg).1 ∧
    Ev.sessionRegistryCreated ∈ (init_configurables cfg).1 ∧
    Ev.recoveryDone ∈ (init_configurables cfg).1 ∧
    (init_configurables cfg).2 =
      (init_configurables { cfg with hasCullerHook := true }).2 := by
  have hpre : Ev.cullerWarning ∈ preGuardTrace cfg ∧
      Ev.sessionRegistryCreated ∈ preGuardTrace cfg ∧
      Ev.recoveryDone ∈ preGuardTrace cfg := by
    rcases hseed : cfg.seed_uri with _ | s <;> simp [preGuardTrace, hseed, h]
  have hfst : ∀ e : Ev, e ∈ preGuardTrace cfg → e ∈ (init_configurables cfg).1 := by
    intro e he
    cases hv : prespawnViolation cfg <;> simp [init_configurables, hv, he]
  refine ⟨hfst _ hpre.1, hfst _ hpre.2.1, hfst _ hpre.2.2, ?_⟩
  have hviol : prespawnViolation { cfg with hasCullerHook := true } =
      prespawnViolation cfg := rfl
  cases hv : prespawnViolation cfg <;>
    simp [init_configurables, hv, hviol]

/-- C8, applied at a configuration whose kernel manager lacks the capability:
the warning is emitted, the registry and recovery still run, and the outcome
matches the capable configuration's outcome. -/
theorem C8_missing_culler_nonfatal_witness :
    Ev.cullerWarning ∈ (init_configurables cfgNoCuller).1 ∧
    Ev.sessionRegistryCreated ∈ (init_configurables cfgNoCuller).1 ∧
    Ev.recoveryDone ∈ (init_configurables cfgNoCuller).1 ∧
    (init_configurables cfgNoCuller).2 =
      (init_configurables { cfgNoCuller with hasCullerHook := true }).2 :=
  C8_missing_culler_nonfatal cfgNoCuller (by decide)
